import Mathlib

/-!
Verification of the optimizer framework of the `yase` repository.

The development shallowly embeds the Python optimizers in Lean 4:

* real vectors become `List ℚ` (the algorithms only use field arithmetic,
  comparisons, and Euclidean norms; every comparison that the Python code
  performs on a Euclidean norm `‖v‖ = √(v·v)` is represented here by the
  equivalent comparison on squares, using that `√` is monotone and both
  sides of each such comparison are nonnegative — e.g. for `eps ≥ 0`,
  `‖v‖ ≤ eps ↔ v·v ≤ eps²`);
* the `while True` loops of the `minimize` methods become fuel-indexed
  recursions returning `Option` (`none` = fuel exhausted, which never
  happens for the runs considered since every loop bounds its iteration
  count);
* NumPy broadcasting/elementwise operations become `List.zipWith`/`List.map`.

Base-class facts used by the embedded methods (the files
`optimization/optimizer.py`, the line-search modules and the stochastic
base class are not part of this source snapshot):

* the old-style `Optimizer` base initializes `self.iter` to 1 — witnessed
  in-source by `NonLinearConjugateGradient.minimize`, which recognizes the
  first iteration with `if self.iter == 1`;
* the new-style (yase) bases initialize `self.iter` to 0 — witnessed by
  `HeavyBallGradient.minimize` (`if self.iter == 0: d = -g`) and by
  `RProp.minimize` (`if self.iter >= self.max_iter`), with the stochastic
  epoch budget `epochs` giving `max_iter`;
* `StochasticOptimizer` feeds `minimize` an endless stream of mini-batches
  (`utils.iter_mini_batches` documents itself as an "infinite iterator"),
  so the per-batch loops exit only through their own `break` statements.
-/

set_option maxRecDepth 8000

namespace Yase

/-- Real vectors of the Python code, embedded as lists of rationals. -/
abbrev Vec := List ℚ

/-- Elementwise addition (NumPy `+` on aligned arrays). -/
def vadd (a b : Vec) : Vec := List.zipWith (· + ·) a b

/-- Elementwise subtraction (NumPy `-` on aligned arrays). -/
def vsub (a b : Vec) : Vec := List.zipWith (· - ·) a b

/-- Elementwise negation (NumPy unary `-`). -/
def vneg (a : Vec) : Vec := a.map (fun x => -x)

/-- Scalar multiplication (NumPy scalar broadcasting). -/
def smul (c : ℚ) (a : Vec) : Vec := a.map (fun x => c * x)

/-- Elementwise (Hadamard) product (NumPy `*` on aligned arrays). -/
def vmul (a b : Vec) : Vec := List.zipWith (· * ·) a b

/-- Inner product `a.T.dot(b)`. -/
def dot (a b : Vec) : ℚ := (List.zipWith (· * ·) a b).sum

/-- Squared Euclidean norm: `np.linalg.norm(v) ** 2 = v·v`. -/
def normSq (v : Vec) : ℚ := dot v v

/-- Dense matrices, embedded as lists of rows. -/
abbrev Mat := List Vec

/-- Matrix–vector product `M.dot(x)`. -/
def matVec (M : Mat) (x : Vec) : Vec := M.map (fun r => dot r x)

/-- Gradient of the quadratic objective `f(x) = 1/2 x^T Q x - q^T x`,
namely `Q.dot(x) - q` (`Quadratic.jacobian` of the repository). -/
def quadJacobian (Q : Mat) (q x : Vec) : Vec := vsub (matVec Q x) q

/-- The closed termination-status enumeration returned by `minimize`. -/
inductive Status where
  | optimal
  | unbounded
  | stopped
  | error
deriving DecidableEq

/-- Result of a `SteepestGradientDescentQuadratic.minimize` run: the final
point `self.wrt`, the status string, and the final value of the iteration
counter `self.iter` (initialized to 1 by the base `Optimizer`, incremented
once per performed update, so a final value of `k + 1` means exactly `k`
iterations were performed). -/
structure SDQResult where
  x : Vec
  status : Status
  iter : ℕ
deriving DecidableEq

/-- The search direction `d = -g` of
`SteepestGradientDescentQuadratic.minimize` (line 76 of
`optimization/unconstrained/gradient_descent.py`). -/
def sdqD (Q : Mat) (q wrt : Vec) : Vec := vneg (quadJacobian Q q wrt)

/-- The curvature `den = d.T.dot(Q).dot(d)` of
`SteepestGradientDescentQuadratic.minimize` (line 79); `(d^T Q) d` is
written here in the associated form `d^T (Q d)`, the same scalar. -/
def sdqDen (Q : Mat) (q wrt : Vec) : ℚ :=
  dot (sdqD Q q wrt) (matVec Q (sdqD Q q wrt))

/-- The exact-line-search step `a = d.T.dot(d) / den` of
`SteepestGradientDescentQuadratic.minimize` (line 93). -/
def sdqA (Q : Mat) (q wrt : Vec) : ℚ :=
  dot (sdqD Q q wrt) (sdqD Q q wrt) / sdqDen Q q wrt

/-- The `while True` loop of `SteepestGradientDescentQuadratic.minimize`
(`optimization/unconstrained/gradient_descent.py`, lines 49-109), for the
quadratic `f(x) = 1/2 x^T Q x - q^T x`:

* `v, g = f(wrt), Q·wrt - q`; `ng = ‖g‖`;
* `ng <= eps` ⇒ `'optimal'` (the norm comparison is represented on
  squares: `ng ≤ eps ↔ 0 ≤ eps ∧ ng² ≤ eps²`);
* `iter > max_iter` ⇒ `'stopped'`;
* `d = -g`; `den = d^T Q d`; `den <= 1e-12` ⇒ `'unbounded'`;
* otherwise `a = d^T d / den` and `wrt ← wrt + a * d`, `iter ← iter + 1`.

The first argument of the recursion is fuel. -/
def sdqLoop (Q : Mat) (q : Vec) (eps : ℚ) (max_iter : ℕ) :
    ℕ → Vec → ℕ → Option SDQResult
  | 0, _, _ => none
  | fuel + 1, wrt, iter =>
    if 0 ≤ eps ∧ normSq (quadJacobian Q q wrt) ≤ eps * eps then
      some ⟨wrt, .optimal, iter⟩
    else if iter > max_iter then some ⟨wrt, .stopped, iter⟩
    else if sdqDen Q q wrt ≤ 1 / 1000000000000 then some ⟨wrt, .unbounded, iter⟩
    else
      sdqLoop Q q eps max_iter fuel
        (vadd wrt (smul (sdqA Q q wrt) (sdqD Q q wrt))) (iter + 1)

/-- A full `SteepestGradientDescentQuadratic.minimize` run from starting
point `x0`, with `self.iter` initialized to 1 by the base `Optimizer`. -/
def sdqMinimize (Q : Mat) (q : Vec) (eps : ℚ) (max_iter fuel : ℕ)
    (x0 : Vec) : Option SDQResult :=
  sdqLoop Q q eps max_iter fuel x0 1

/-- C1: for the quadratic objective with `Q = diag(1,1)`, `q = (0,0)`,
exact-line-search steepest descent from `x = (-1,1)` with the default
parameters (`eps = 1e-6`, `max_iter = 1000`) returns `x = (0,0)` with
status `optimal`; the final iteration counter is 2 = 1 + 1, i.e. exactly
one iteration was performed. -/
theorem C1_sdq_concrete :
    sdqMinimize [[1, 0], [0, 1]] [0, 0] (1 / 1000000) 1000 1002 [-1, 1] =
      some ⟨[0, 0], Status.optimal, 1 + 1⟩ := by
  with_unfolding_all decide

/-- C2 (amended): at any reached iteration of
`SteepestGradientDescentQuadratic.minimize` whose optimality and budget
checks both fail, the algorithm uses direction `d = -g` with the
closed-form step `a = d^T d / (d^T Q d)`, and if `d^T Q d ≤ 1e-12` — in
particular whenever `-g` is a direction of zero or negative curvature,
`d^T Q d ≤ 0` — the loop terminates immediately with status `unbounded`.
The amendment restricts the original claim's start-point scenario to
start points where the stopping checks do not fire first (see
`C2_counterexample`: a start point whose gradient norm is already within
`eps` returns `optimal` even along a negative-curvature direction). -/
theorem C2_amended_unbounded (Q : Mat) (q : Vec) (eps : ℚ)
    (max_iter fuel : ℕ) (wrt : Vec) (iter : ℕ)
    (hopt : ¬(0 ≤ eps ∧ normSq (quadJacobian Q q wrt) ≤ eps * eps))
    (hbud : ¬ iter > max_iter) :
    (sdqDen Q q wrt ≤ 0 →
      sdqLoop Q q eps max_iter (fuel + 1) wrt iter =
        some ⟨wrt, Status.unbounded, iter⟩) ∧
    (sdqDen Q q wrt ≤ 1 / 1000000000000 →
      sdqLoop Q q eps max_iter (fuel + 1) wrt iter =
        some ⟨wrt, Status.unbounded, iter⟩) ∧
    (1 / 1000000000000 < sdqDen Q q wrt →
      sdqLoop Q q eps max_iter (fuel + 1) wrt iter =
        sdqLoop Q q eps max_iter fuel
          (vadd wrt (smul (sdqA Q q wrt) (sdqD Q q wrt))) (iter + 1)) := by
  refine ⟨fun h => ?_, fun h => ?_, fun h => ?_⟩
  · have h' : sdqDen Q q wrt ≤ 1 / 1000000000000 := le_trans h (by norm_num)
    rw [sdqLoop, if_neg hopt, if_neg hbud, if_pos h']
  · rw [sdqLoop, if_neg hopt, if_neg hbud, if_pos h]
  · rw [sdqLoop, if_neg hopt, if_neg hbud, if_neg (not_le.mpr h)]

/-- Witness for `C2_amended_unbounded`: the 1-dimensional quadratic with
`Q = [[-1]]`, `q = [0]`, start `x = [1]`, default `eps = 1e-6`,
`max_iter = 1000`: the start gradient norm `1` exceeds `eps`, the
curvature of `-g` is `-1 ≤ 0`, and the run stops at the first iteration
with status `unbounded`. -/
theorem C2_witness :
    (¬((0:ℚ) ≤ 1 / 1000000 ∧
        normSq (quadJacobian [[-1]] [0] [1]) ≤ (1 / 1000000) * (1 / 1000000))) ∧
    (¬ 1 > 1000) ∧ sdqDen [[-1]] [0] [1] ≤ 0 ∧
    sdqLoop [[-1]] [0] (1 / 1000000) 1000 (99 + 1) [1] 1 =
      some ⟨[1], Status.unbounded, 1⟩ :=
  ⟨by with_unfolding_all decide, by decide, by with_unfolding_all decide,
    (C2_amended_unbounded [[-1]] [0] (1 / 1000000) 1000 99 [1] 1
      (by with_unfolding_all decide) (by decide)).1
      (by with_unfolding_all decide)⟩

/-- C2, counterexample to the original universal start-point statement:
for `Q = [[-1]]`, `q = [0]` the direction `-g` at the start point
`x = [1e-7]` has strictly negative curvature (`d^T Q d ≤ 0` with a
nonzero gradient), yet the run returns status `optimal`, not
`unbounded`, because the gradient norm `1e-7` is already below the
default threshold `eps = 1e-6`. -/
theorem C2_counterexample :
    (sdqMinimize [[-1]] [0] (1 / 1000000) 1000 5 [1 / 10000000]).map
        (fun r => (r.status, r.iter)) = some (Status.optimal, 1) ∧
    sdqDen [[-1]] [0] [1 / 10000000] ≤ 0 ∧
    0 < normSq (quadJacobian [[-1]] [0] [1 / 10000000]) ∧
    Status.optimal ≠ Status.unbounded := by
  with_unfolding_all decide

/-! ### Nonlinear conjugate gradient
(`optimization/unconstrained/conjugate_gradient.py`,
`NonLinearConjugateGradient.minimize`, lines 192-225). -/

/-- The restart test of `NonLinearConjugateGradient.minimize`, line 197:
`self.r_start > 0 and self.iter % self.n * self.r_start == 0`. Python
parses `iter % n * r_start` as `(iter % n) * r_start` (`%` and `*` share
precedence, left-associative). -/
def ncgRestart (r_start n iter : ℕ) : Bool :=
  decide (0 < r_start) && decide (iter % n * r_start = 0)

/-- The β formula selection of `NonLinearConjugateGradient.minimize`,
lines 203-215.  `wf = 0`: Fletcher-Reeves/Polak-Ribière hybrid
`max(-betaFR, min(betaPR, betaFR))`; `wf = 1`: Fletcher-Reeves
`(‖g‖/‖past_g‖)² = g·g / past_g·past_g`; `wf = 2`: Polak-Ribière clipped
to `max(·, 0)`; `wf = 3`: Hestenes-Stiefel; `wf = 4`: Dai-Yuan. -/
def ncgBeta (wf : ℕ) (g past_g past_d : Vec) : ℚ :=
  if wf = 0 then
    max (-(normSq g / normSq past_g))
      (min (dot g (vsub g past_g) / normSq past_g) (normSq g / normSq past_g))
  else if wf = 1 then normSq g / normSq past_g
  else if wf = 2 then max (dot g (vsub g past_g) / normSq past_g) 0
  else if wf = 3 then dot g (vsub g past_g) / dot (vsub g past_g) past_d
  else normSq g / dot (vsub g past_g) past_d

/-- The search-direction computation of
`NonLinearConjugateGradient.minimize`, lines 192-222: the first iteration
(`self.iter == 1`; the old-style base `Optimizer` initializes `iter` to 1)
uses `d = -g`; a restart iteration forces `beta = 0`; otherwise
`d = -g + beta * past_d` when `beta != 0`, and `d = -g` when `beta == 0`. -/
def ncgDirection (wf n r_start iter : ℕ) (g past_g past_d : Vec) : Vec :=
  if iter = 1 then vneg g
  else if ncgRestart r_start n iter then vneg g
  else if ncgBeta wf g past_g past_d ≠ 0 then
    vadd (vneg g) (smul (ncgBeta wf g past_g past_d) past_d)
  else vneg g

/-- Adding `0 • w` elementwise is the identity on aligned vectors. -/
theorem vadd_smul_zero (v w : Vec) (h : v.length = w.length) :
    vadd v (smul 0 w) = v := by
  induction v generalizing w with
  | nil => simp [vadd]
  | cons a v ih =>
    cases w with
    | nil => simp at h
    | cons b w =>
      show (a + 0 * b) :: vadd v (smul 0 w) = a :: v
      rw [ih w (by simpa using h)]
      norm_num

/-- A squared norm is a sum of squares, hence nonnegative. -/
theorem normSq_nonneg (v : Vec) : 0 ≤ normSq v := by
  induction v with
  | nil => simp [normSq, dot]
  | cons a v ih =>
    have : normSq (a :: v) = a * a + normSq v := rfl
    rw [this]
    nlinarith [mul_self_nonneg a]

/-- On a non-first, non-restart iteration the NCG direction is always
`-g + β·past_d` for the selected `β` (the `beta == 0` branch of the code
returns `-g`, which coincides with `-g + 0·past_d`). -/
theorem ncgDirection_eq (wf n r_start iter : ℕ) (g past_g past_d : Vec)
    (hiter : iter ≠ 1) (hres : ncgRestart r_start n iter = false)
    (hlen : g.length = past_d.length) :
    ncgDirection wf n r_start iter g past_g past_d =
      vadd (vneg g) (smul (ncgBeta wf g past_g past_d) past_d) := by
  rw [ncgDirection, if_neg hiter, if_neg (by simp [hres])]
  by_cases hb : ncgBeta wf g past_g past_d ≠ 0
  · rw [if_pos hb]
  · push_neg at hb
    rw [if_neg (by simp [hb]), hb,
      vadd_smul_zero (vneg g) past_d (by simpa [vneg] using hlen)]

/-- C4: the restart predicate of `NonLinearConjugateGradient.minimize`
evaluated at dimension `n = 2`, `r_start = 3`, iteration 2 (a non-first
iteration): the code performs a restart (`(2 % 2) * 3 == 0`) and returns
`d = -g`, although 2 is not a multiple of `n * r_start = 6` and the
non-restart formula would have produced a different direction.  The code
thus restarts at every multiple of `n`, contradicting its own
documentation (lines 59-60: restarts every `n * r_start` iterations). -/
theorem C4_restart_at_failing_input :
    ncgRestart 3 2 2 = true ∧ ¬ (2 % (2 * 3) = 0) ∧
    ncgDirection 1 2 3 2 [1, 2] [1, 1] [5, 5] = vneg [1, 2] ∧
    ncgDirection 1 2 3 2 [1, 2] [1, 1] [5, 5] ≠
      vadd (vneg [1, 2]) (smul (ncgBeta 1 [1, 2] [1, 1] [5, 5]) [5, 5]) := by
  with_unfolding_all decide

/-- C6: on non-first, non-restart iterations
`NonLinearConjugateGradient.minimize` uses `d = -g + β·d_prev`, where for
the Polak-Ribière formula (`wf = 2`) `β = max(β_PR, 0) ≥ 0`, and for the
Fletcher-Reeves/Polak-Ribière hybrid (`wf = 0`) `β` is the Polak-Ribière
value clamped to `[-β_FR, β_FR]`; the first iteration (`iter = 1`) uses
`d = -g` for every formula. -/
theorem C6_ncg_direction_formulas (wf n r_start iter : ℕ)
    (g past_g past_d : Vec) (hiter : iter ≠ 1)
    (hres : ncgRestart r_start n iter = false)
    (hlen : g.length = past_d.length) (hpg : 0 < normSq past_g) :
    (ncgDirection 2 n r_start iter g past_g past_d =
        vadd (vneg g)
          (smul (max (dot g (vsub g past_g) / normSq past_g) 0) past_d) ∧
      0 ≤ max (dot g (vsub g past_g) / normSq past_g) 0) ∧
    (ncgDirection 0 n r_start iter g past_g past_d =
        vadd (vneg g) (smul (ncgBeta 0 g past_g past_d) past_d) ∧
      -(normSq g / normSq past_g) ≤ ncgBeta 0 g past_g past_d ∧
      ncgBeta 0 g past_g past_d ≤ normSq g / normSq past_g ∧
      (-(normSq g / normSq past_g) ≤ dot g (vsub g past_g) / normSq past_g →
        dot g (vsub g past_g) / normSq past_g ≤ normSq g / normSq past_g →
        ncgBeta 0 g past_g past_d =
          dot g (vsub g past_g) / normSq past_g)) ∧
    ncgDirection wf n r_start 1 g past_g past_d = vneg g := by
  have hFR : (0:ℚ) ≤ normSq g / normSq past_g :=
    div_nonneg (normSq_nonneg g) (normSq_nonneg past_g)
  have h0 : ncgBeta 0 g past_g past_d =
      max (-(normSq g / normSq past_g))
        (min (dot g (vsub g past_g) / normSq past_g)
          (normSq g / normSq past_g)) := by
    simp [ncgBeta]
  refine ⟨⟨?_, le_max_right _ _⟩, ⟨?_, ?_, ?_, ?_⟩, ?_⟩
  · rw [ncgDirection_eq 2 n r_start iter g past_g past_d hiter hres hlen]
    simp [ncgBeta]
  · exact ncgDirection_eq 0 n r_start iter g past_g past_d hiter hres hlen
  · rw [h0]
    exact le_max_left _ _
  · rw [h0]
    exact max_le (by linarith) (min_le_right _ _)
  · intro h1 h2
    rw [h0, min_eq_left h2, max_eq_right h1]
  · rw [ncgDirection, if_pos rfl]

/-- Witness for `C6_ncg_direction_formulas` at `iter = 2`, `n = 5`,
`r_start = 0`, `g = (1,1)`, `past_g = (1,0)`, `past_d = (2,3)`. -/
theorem C6_witness :
    ((2 ≠ 1) ∧ ncgRestart 0 5 2 = false ∧
      ([1, 1] : Vec).length = ([2, 3] : Vec).length ∧
      0 < normSq [1, 0]) ∧
    ncgDirection 2 5 0 2 [1, 1] [1, 0] [2, 3] =
      vadd (vneg [1, 1])
        (smul (max (dot [1, 1] (vsub [1, 1] [1, 0]) / normSq [1, 0]) 0)
          [2, 3]) :=
  ⟨⟨by decide, by decide, by decide, by with_unfolding_all decide⟩,
    (C6_ncg_direction_formulas 3 5 0 2 [1, 1] [1, 0] [2, 3] (by decide)
      (by decide) (by decide) (by with_unfolding_all decide)).1.1⟩

/-! ### Momentum gradient descent
(`optimization/unconstrained/gradient_descent.py`, `GradientDescent`,
lines 341-444). -/

/-- Result of a `GradientDescent.minimize` run: final `self.wrt`, status,
and the final `self.iter` (initialized to 1 by the base `Optimizer`). -/
structure GDResult where
  x : Vec
  status : Status
  iter : ℕ
deriving DecidableEq

/-- The stopping test `ng <= self.eps * ng0` of `GradientDescent.minimize`
(lines 378-383 and 423): `ng` is the norm of the gradient at the
*starting* point, computed once before the loop and never reassigned
inside it, and `ng0` is `1` for `eps >= 0` and `-ng` for `eps < 0`.  The
whole test is therefore a run constant; on squares it reads
`ngSq0 ≤ eps²` resp. `ngSq0 ≤ eps²·ngSq0` (for `eps < 0` both sides of
`ng ≤ (-eps)·ng` are nonnegative). -/
def gdStaleCheck (eps ngSq0 : ℚ) : Bool :=
  if 0 ≤ eps then decide (ngSq0 ≤ eps * eps)
  else decide (ngSq0 ≤ eps * eps * ngSq0)

/-- The `while True` loop of `GradientDescent.minimize` (lines 388-438)
for the default `momentum_type='none'` branch on a quadratic objective:
each pass computes `gradient = f.jacobian(wrt)`, applies
`wrt -= step_rate * gradient`, and only then runs the stopping checks —
the gradient-norm check against the stale pre-loop norm (see
`gdStaleCheck`), then `iter > max_iter ⇒ 'stopped'`. -/
def gdLoop (Q : Mat) (q : Vec) (step_rate : ℚ) (max_iter : ℕ)
    (staleOptimal : Bool) : ℕ → Vec → ℕ → Option GDResult
  | 0, _, _ => none
  | fuel + 1, wrt, iter =>
    if staleOptimal then
      some ⟨vsub wrt (smul step_rate (quadJacobian Q q wrt)), .optimal, iter⟩
    else if iter > max_iter then
      some ⟨vsub wrt (smul step_rate (quadJacobian Q q wrt)), .stopped, iter⟩
    else
      gdLoop Q q step_rate max_iter staleOptimal fuel
        (vsub wrt (smul step_rate (quadJacobian Q q wrt))) (iter + 1)

/-- A full `GradientDescent.minimize` run (momentum `'none'`) from `x0`,
with `self.iter` initialized to 1 by the base `Optimizer`. -/
def gdMinimize (Q : Mat) (q : Vec) (eps step_rate : ℚ)
    (max_iter fuel : ℕ) (x0 : Vec) : Option GDResult :=
  gdLoop Q q step_rate max_iter
    (gdStaleCheck eps (normSq (quadJacobian Q q x0))) fuel x0 1

/-- C5, failing run: on `f(x) = x²/2` (`Q = [[1]]`, `q = [0]`) from
`x0 = 1` with `step_rate = 1/2`, `eps = 1e-6`, `max_iter = 30`, the run
returns status `stopped` after exhausting the budget, even though the
gradient norm at the returned iterate (`2⁻³¹`) is far below `eps`: the
stopping check of `GradientDescent.minimize` compares `eps` against the
starting-point gradient norm (`ng` is never recomputed inside the loop),
so the claimed "gradient norm at the current point of that iteration"
check never fires and `optimal` is unreachable whenever the starting
gradient exceeds the threshold. -/
theorem C5_stale_gradient_check :
    (gdMinimize [[1]] [0] (1 / 1000000) (1 / 2) 30 40 [1]).map
        (fun r => (r.status, r.iter)) = some (Status.stopped, 31) ∧
    Option.all
        (fun r => decide (normSq (quadJacobian [[1]] [0] r.x) ≤
          1 / 1000000 * (1 / 1000000)))
        (gdMinimize [[1]] [0] (1 / 1000000) (1 / 2) 30 40 [1]) = true ∧
    Status.stopped ≠ Status.optimal := by
  with_unfolding_all decide

/-! ### Constructor validation (C9)
`GradientDescent.__init__` (gradient_descent.py lines 343-358),
`NonLinearConjugateGradient.__init__` (conjugate_gradient.py lines
137-145), `SteepestGradientDescentQuadratic.__init__`
(gradient_descent.py lines 28-34). -/

/-- Acceptance predicate of `GradientDescent.__init__`: it raises
`ValueError` iff `step_rate < 0`, or `momentum < 0`, or `momentum_type`
is not one of `'nesterov'`, `'standard'`, `'none'`.  (The code places no
upper bound on `momentum`.) -/
def gdInitAccepts (step_rate momentum : ℚ) (momentum_type : String) :
    Bool :=
  !(decide (step_rate < 0)) && !(decide (momentum < 0)) &&
    (momentum_type == "nesterov" || momentum_type == "standard" ||
      momentum_type == "none")

/-- Acceptance predicate of `NonLinearConjugateGradient.__init__`:
raises iff `wf < 0 or wf > 4`. -/
def ncgInitAccepts (wf : ℤ) : Bool :=
  !(decide (wf < 0) || decide (wf > 4))

/-- Acceptance predicate of `SteepestGradientDescentQuadratic.__init__`:
raises iff `self.wrt.size != self.f.hessian().shape[0]`. -/
def sdqInitAccepts (wrt_size hessian_rows : ℕ) : Bool :=
  wrt_size == hessian_rows

/-- C9 (amended): the constructor checks reject, synchronously at
construction, a *negative* momentum coefficient or an unknown momentum
type (`GradientDescent.__init__`; momentum values `≥ 1` are accepted,
see `C9_counterexample`), a `step_rate < 0`, a `wf` outside `{0..4}`
(`NonLinearConjugateGradient.__init__`), and a start point whose size
mismatches the Hessian (`SteepestGradientDescentQuadratic.__init__`). -/
theorem C9_amended_validation (step_rate momentum : ℚ)
    (momentum_type : String) (wf : ℤ) (wrt_size hessian_rows : ℕ) :
    (gdInitAccepts step_rate momentum momentum_type = true ↔
      (0 ≤ step_rate ∧ 0 ≤ momentum ∧
        (momentum_type = "nesterov" ∨ momentum_type = "standard" ∨
          momentum_type = "none"))) ∧
    (ncgInitAccepts wf = true ↔ (0 ≤ wf ∧ wf ≤ 4)) ∧
    (sdqInitAccepts wrt_size hessian_rows = true ↔
      wrt_size = hessian_rows) := by
  refine ⟨?_, ?_, ?_⟩
  · simp only [gdInitAccepts, Bool.and_eq_true, Bool.not_eq_true',
      decide_eq_false_iff_not, not_lt, Bool.or_eq_true, beq_iff_eq,
      and_assoc, or_assoc]
  · simp only [ncgInitAccepts, Bool.not_eq_true', Bool.or_eq_false_iff,
      decide_eq_false_iff_not, not_lt]
  · simp [sdqInitAccepts]

/-- C9, counterexample to the original claim: `GradientDescent.__init__`
accepts `momentum = 1` (with `step_rate = 1/100`, `momentum_type =
'none'`), although `1` lies outside `[0, 1)`; only negative momentum
coefficients are rejected. -/
theorem C9_counterexample :
    gdInitAccepts (1 / 100) 1 "none" = true ∧ ¬ ((1:ℚ) < 1) := by
  with_unfolding_all decide

/-! ### Heavy-ball gradient
(`optimization/unconstrained/line_search/heavy_ball_gradient.py`,
`HeavyBallGradient.minimize`, lines 169-205).  The line-search module is
not part of this snapshot; per the spec (§4.2) it returns a step `a > 0`
along the chosen direction satisfying the Armijo/Wolfe conditions, so the
step length `a` is a parameter of the embedded iteration, and the
Euclidean norms `ng = ‖g‖` and `npd = ‖past_d‖` used by the scaled-β
branch are likewise passed as (nonnegative) scalars. -/

/-- The length of an elementwise sum is the minimum of the lengths. -/
theorem length_vadd (a b : Vec) : (vadd a b).length = min a.length b.length :=
  List.length_zipWith ..

/-- Scalar multiplication preserves length. -/
theorem length_smul (c : ℚ) (a : Vec) : (smul c a).length = a.length :=
  List.length_map ..

/-- Negation preserves length. -/
theorem length_vneg (a : Vec) : (vneg a).length = a.length :=
  List.length_map ..

/-- Subtracting the base point of an elementwise sum recovers the
summand, on aligned vectors. -/
theorem vsub_vadd_cancel (x v : Vec) (h : x.length = v.length) :
    vsub (vadd x v) x = v := by
  induction x generalizing v with
  | nil =>
    cases v with
    | nil => rfl
    | cons b v => simp at h
  | cons a x ih =>
    cases v with
    | nil => simp at h
    | cons b v =>
      show (a + b - a) :: vsub (vadd x v) x = b :: v
      rw [ih v (by simpa using h), add_sub_cancel_left]

/-- The deflected-gradient direction of `HeavyBallGradient.minimize`
(lines 170-177): first iteration (`self.iter == 0`; the yase base class
initializes `iter` to 0) uses `d = -g`; afterwards
`d = -g + beta_i * past_d` with `beta_i = beta` when the configured
`beta > 0`, and `beta_i = -beta * ‖g‖ / ‖past_d‖` otherwise. -/
def hbDirection (beta : ℚ) (iter : ℕ) (g past_d : Vec) (ng npd : ℚ) :
    Vec :=
  if iter = 0 then vneg g
  else if 0 < beta then vadd (vneg g) (smul beta past_d)
  else vadd (vneg g) (smul (-beta * ng / npd) past_d)

/-- One point update of `HeavyBallGradient.minimize` (lines 179-203):
the line search moves to `last_x = x + a * d`, and the momentum buffer
becomes `past_d = last_x - self.x` — the *displacement* between
consecutive iterates, not the search direction `d`.  Returns
`(last_x, new past_d)`. -/
def hbStep (beta : ℚ) (iter : ℕ) (x past_d g : Vec) (ng npd a : ℚ) :
    Vec × Vec :=
  (vadd x (smul a (hbDirection beta iter g past_d ng npd)),
   vsub (vadd x (smul a (hbDirection beta iter g past_d ng npd))) x)

/-- C8 (amended): in `HeavyBallGradient.minimize` the first iteration
uses `d = -g`; every subsequent iteration uses `d = -g + beta_i * d_prev`
with `beta_i` equal to the configured `beta` when `beta > 0` and to
`|beta| * ‖g‖ / ‖d_prev‖` when `beta ≤ 0`, where `d_prev` is the
*previous displacement* `x_i - x_{i-1}` (equal to the previous step
length times the previous search direction), not the previous search
direction itself: the momentum buffer is updated as
`past_d = last_x - x`. -/
theorem C8_amended_direction (beta : ℚ) (iter : ℕ) (x past_d g : Vec)
    (ng npd a : ℚ) (hx : x.length = g.length)
    (hpd : past_d.length = g.length) :
    (iter = 0 → hbDirection beta iter g past_d ng npd = vneg g) ∧
    (iter ≠ 0 → 0 < beta →
      hbDirection beta iter g past_d ng npd =
        vadd (vneg g) (smul beta past_d)) ∧
    (iter ≠ 0 → beta ≤ 0 →
      hbDirection beta iter g past_d ng npd =
        vadd (vneg g) (smul (-beta * ng / npd) past_d)) ∧
    (hbStep beta iter x past_d g ng npd a).2 =
      smul a (hbDirection beta iter g past_d ng npd) := by
  have hdir : (hbDirection beta iter g past_d ng npd).length = g.length := by
    rw [hbDirection]
    by_cases h0 : iter = 0
    · rw [if_pos h0, length_vneg]
    · rw [if_neg h0]
      by_cases hb : 0 < beta
      · rw [if_pos hb, length_vadd, length_vneg, length_smul, hpd,
          min_self]
      · rw [if_neg hb, length_vadd, length_vneg, length_smul, hpd,
          min_self]
  refine ⟨fun h0 => by rw [hbDirection, if_pos h0], ?_, ?_, ?_⟩
  · intro h0 hb
    rw [hbDirection, if_neg h0, if_pos hb]
  · intro h0 hb
    rw [hbDirection, if_neg h0, if_neg (not_lt.mpr hb)]
  · exact vsub_vadd_cancel x _ (by rw [length_smul, hdir, hx])

/-- Witness for `C8_amended_direction` at `beta = 9/10`, `iter = 1`,
`x = [1/2]`, `past_d = [-1/2]`, `g = [1/2]`, `ng = npd = 1/2`,
`a = 1`. -/
theorem C8_witness :
    (([1 / 2] : Vec).length = ([1 / 2] : Vec).length ∧
      ([-(1 / 2)] : Vec).length = ([1 / 2] : Vec).length) ∧
    hbDirection (9 / 10) 1 [1 / 2] [-(1 / 2)] (1 / 2) (1 / 2) =
      vadd (vneg [1 / 2]) (smul (9 / 10) [-(1 / 2)]) :=
  ⟨⟨by decide, by decide⟩,
    (C8_amended_direction (9 / 10) 1 [1 / 2] [-(1 / 2)] [1 / 2] (1 / 2)
        (1 / 2) 1 (by decide) (by decide)).2.1
      (by decide) (by with_unfolding_all decide)⟩

/-- C8, counterexample to the original claim on a realizable run of
`HeavyBallGradient.minimize` on `f(x) = x²/2` (gradient `g(x) = x`) from
`x0 = 1` with the default fixed momentum `beta = 0.9`: iteration 0 takes
`d0 = -g0 = [-1]` and the line search accepts the step `a = 1/2`
(it satisfies both the Armijo condition with `m1 = 0.01` and the strong
Wolfe condition with `m2 = 0.9`), so `x1 = [1/2]`, the stored buffer is
`past_d = x1 - x0 = [-1/2]`, and `g1 = [1/2]`.  At iteration 1 the code
computes `d1 = -g1 + 0.9 * (x1 - x0) = [-0.95]`, which differs from the
claim's `-g1 + 0.9 * d0 = [-1.4]`: `d_prev` is the previous
displacement, not the previous search direction. -/
theorem C8_counterexample :
    (hbStep (9 / 10) 0 [1] [0] [1] 1 0 (1 / 2)).2 = [-(1 / 2)] ∧
    hbDirection (9 / 10) 1 [1 / 2] [-(1 / 2)] (1 / 2) (1 / 2) ≠
      vadd (vneg [1 / 2])
        (smul (9 / 10) (hbDirection (9 / 10) 0 [1] [0] 1 0)) := by
  with_unfolding_all decide

/-! ### Stochastic family: RProp and AdaMax
(`yase/optimization/unconstrained/stochastic/rprop.py`, `RProp`,
and `optimization/unconstrained/stochastic/adamax.py`, `AdaMax`).
Both are embedded for the default `momentum_type='none'` path on a
full-batch quadratic objective.  The missing `StochasticOptimizer` base
supplies (per the in-source uses and the spec §4.4): `iter` initialized
to 0, `max_iter` the epoch budget, and an endless batch stream
(`utils.iter_mini_batches` is documented as an infinite iterator), so
each loop exits only through its own `break`. -/

/-- NumPy sign of a scalar (`np.sign`). -/
def sign (a : ℚ) : ℚ := if 0 < a then 1 else if a < 0 then -1 else 0

/-- NumPy clamp: `np.clip(a, lo, hi) = min(max(a, lo), hi)`. -/
def clip (lo hi a : ℚ) : ℚ := min (max a lo) hi

/-- One coordinate of the RProp step-magnitude update
(`rprop.py` lines 59-61): grow by `step_grow` when the product of
previous and current gradient components is positive, shrink by
`step_shrink` when it is negative, then clamp to
`[min_step, max_step]`. -/
def rpropChange (step_grow step_shrink min_step max_step gp c : ℚ) : ℚ :=
  clip min_step max_step
    (if 0 < gp then c * step_grow else if gp < 0 then c * step_shrink else c)

/-- The vectorized `changes` update of `RProp.minimize` (lines 59-61). -/
def rpropChanges (step_grow step_shrink min_step max_step : ℚ)
    (grad_prod changes : Vec) : Vec :=
  List.zipWith (rpropChange step_grow step_shrink min_step max_step)
    grad_prod changes

/-- The applied update `step2 = changes * np.sign(jacobian)` of
`RProp.minimize` (line 63). -/
def rpropStep2 (changes jacobian : Vec) : Vec :=
  List.zipWith (fun c j => c * sign j) changes jacobian

/-- The per-run mutable state of `RProp`: the current point `self.x`, the
stored previous gradient `self.jacobian`, and the per-coordinate step
magnitudes `self.changes`. -/
structure RPropState where
  x : Vec
  jacobian : Vec
  changes : Vec
deriving DecidableEq

/-- The initial `RProp` state (`RProp.__init__`, lines 18-19):
`self.jacobian = np.zeros_like(self.x)` and
`self.changes = np.zeros_like(self.x)`. -/
def rpropInit (x0 : Vec) : RPropState :=
  ⟨x0, List.replicate x0.length 0, List.replicate x0.length 0⟩

/-- One batch update of `RProp.minimize` (lines 54-75, momentum
`'none'`): `g_m1 = self.jacobian`; `self.jacobian = f.jacobian(x)`;
`grad_prod = g_m1 * self.jacobian`; grow/shrink/clamp `changes`;
`step2 = changes * sign(jacobian)`; `x -= step2`. -/
def rpropBody (Q : Mat) (q : Vec) (step_grow step_shrink min_step max_step : ℚ)
    (s : RPropState) : RPropState :=
  ⟨vsub s.x
      (rpropStep2
        (rpropChanges step_grow step_shrink min_step max_step
          (vmul s.jacobian (quadJacobian Q q s.x)) s.changes)
        (quadJacobian Q q s.x)),
    quadJacobian Q q s.x,
    rpropChanges step_grow step_shrink min_step max_step
      (vmul s.jacobian (quadJacobian Q q s.x)) s.changes⟩

/-- The batch loop of `RProp.minimize` (lines 29-75): each pass first
tests `self.iter >= self.max_iter` (⇒ `'stopped'`, the only status the
method ever assigns), otherwise performs one `rpropBody` update and
increments `iter`. -/
def rpropLoop (Q : Mat) (q : Vec)
    (step_grow step_shrink min_step max_step : ℚ) (max_iter : ℕ) :
    ℕ → RPropState → ℕ → Option (Vec × Status)
  | 0, _, _ => none
  | fuel + 1, s, iter =>
    if iter ≥ max_iter then some (s.x, .stopped)
    else
      rpropLoop Q q step_grow step_shrink min_step max_step max_iter fuel
        (rpropBody Q q step_grow step_shrink min_step max_step s) (iter + 1)

/-- The per-run mutable state of `AdaMax`: point, biased first moment,
and exponentially weighted infinity norm. -/
structure AdaMaxState where
  x : Vec
  est_mom1 : Vec
  est_mom2 : Vec
deriving DecidableEq

/-- The initial `AdaMax` state (`AdaMax.__init__`, lines 19 and 23):
both moment accumulators start at `0` (broadcast to vectors). -/
def adamaxInit (x0 : Vec) : AdaMaxState :=
  ⟨x0, List.replicate x0.length 0, List.replicate x0.length 0⟩

/-- One batch update of `AdaMax.minimize` (lines 57-87, momentum
`'none'`), with `t = iter + 1`:
`est_mom1 = beta1 * est_mom1_m1 + (1 - beta1) * g`;
`est_mom2 = max(beta2 * est_mom2_m1, |g|)` elementwise;
`est_mom1_crt = est_mom1 / (1 - beta1 ** t)`;
`step2 = step_size * est_mom1_crt / (est_mom2 + offset)`;
`x -= step2`. -/
def adamaxBody (Q : Mat) (q : Vec) (step_size beta1 beta2 offset : ℚ)
    (t : ℕ) (s : AdaMaxState) : AdaMaxState :=
  let g := quadJacobian Q q s.x
  let est_mom1 := vadd (smul beta1 s.est_mom1) (smul (1 - beta1) g)
  let est_mom2 :=
    List.zipWith (fun v gi => max (beta2 * v) |gi|) s.est_mom2 g
  ⟨vsub s.x
      (List.zipWith
        (fun mc v => step_size * mc / (v + offset))
        (est_mom1.map (fun m => m / (1 - beta1 ^ t))) est_mom2),
    est_mom1, est_mom2⟩

/-- The batch loop of `AdaMax.minimize` (lines 40-89): each pass first
tests `self.iter >= self.max_iter` (⇒ `'stopped'`, the only status the
method ever assigns), otherwise performs one `adamaxBody` update with
`t = iter + 1` and increments `iter`. -/
def adamaxLoop (Q : Mat) (q : Vec) (step_size beta1 beta2 offset : ℚ)
    (max_iter : ℕ) : ℕ → AdaMaxState → ℕ → Option (Vec × Status)
  | 0, _, _ => none
  | fuel + 1, s, iter =>
    if iter ≥ max_iter then some (s.x, .stopped)
    else
      adamaxLoop Q q step_size beta1 beta2 offset max_iter fuel
        (adamaxBody Q q step_size beta1 beta2 offset (iter + 1) s)
        (iter + 1)

/-- Every value the RProp batch loop can return carries status
`stopped`. -/
theorem rpropLoop_stopped (Q : Mat) (q : Vec)
    (step_grow step_shrink min_step max_step : ℚ) (max_iter : ℕ) :
    ∀ fuel s iter r,
      rpropLoop Q q step_grow step_shrink min_step max_step max_iter
          fuel s iter = some r →
        r.2 = Status.stopped := by
  intro fuel
  induction fuel with
  | zero => intro s iter r h; simp [rpropLoop] at h
  | succ n ih =>
    intro s iter r h
    rw [rpropLoop] at h
    by_cases hit : iter ≥ max_iter
    · rw [if_pos hit] at h
      rw [← Option.some.inj h]
    · rw [if_neg hit] at h
      exact ih _ _ _ h

/-- Every value the AdaMax batch loop can return carries status
`stopped`. -/
theorem adamaxLoop_stopped (Q : Mat) (q : Vec)
    (step_size beta1 beta2 offset : ℚ) (max_iter : ℕ) :
    ∀ fuel s iter r,
      adamaxLoop Q q step_size beta1 beta2 offset max_iter fuel s iter =
          some r →
        r.2 = Status.stopped := by
  intro fuel
  induction fuel with
  | zero => intro s iter r h; simp [adamaxLoop] at h
  | succ n ih =>
    intro s iter r h
    rw [adamaxLoop] at h
    by_cases hit : iter ≥ max_iter
    · rw [if_pos hit] at h
      rw [← Option.some.inj h]
    · rw [if_neg hit] at h
      exact ih _ _ _ h

/-- C3 (amended): a terminating run of `RProp.minimize` or
`AdaMax.minimize` always returns status `stopped` — produced exactly when
the epoch budget `iter >= max_iter` is reached; neither method contains a
gradient-norm test, so no run returns `optimal`
(see `C3_counterexample`). -/
theorem C3_amended_stochastic_status (Q : Mat) (q : Vec)
    (step_grow step_shrink min_step max_step : ℚ)
    (step_size beta1 beta2 offset : ℚ) (max_iter fuel fuel' iter iter' : ℕ)
    (s : RPropState) (s' : AdaMaxState) (r r' : Vec × Status) :
    (rpropLoop Q q step_grow step_shrink min_step max_step max_iter
        fuel s iter = some r →
      r.2 = Status.stopped) ∧
    (adamaxLoop Q q step_size beta1 beta2 offset max_iter fuel' s' iter' =
        some r' →
      r'.2 = Status.stopped) :=
  ⟨rpropLoop_stopped Q q step_grow step_shrink min_step max_step max_iter
      fuel s iter r,
    adamaxLoop_stopped Q q step_size beta1 beta2 offset max_iter fuel'
      s' iter' r'⟩

/-- Witness for `C3_amended_stochastic_status`: a concrete one-epoch
RProp run on `f(x) = x²/2` from `x0 = 0`. -/
theorem C3_witness :
    (rpropLoop [[1]] [0] (12 / 10) (1 / 2) (1 / 1000000) 1 1 3
        (rpropInit [0]) 0 = some ([0], Status.stopped)) ∧
    (([0] : Vec), Status.stopped).2 = Status.stopped :=
  ⟨by with_unfolding_all decide,
    (C3_amended_stochastic_status [[1]] [0] (12 / 10) (1 / 2)
        (1 / 1000000) 1 (2 / 1000) (9 / 10) (999 / 1000) (1 / 100000000)
        1 3 3 0 0 (rpropInit [0]) (adamaxInit [0])
        ([0], Status.stopped) ([0], Status.stopped)).1
      (by with_unfolding_all decide)⟩

/-- C3, counterexample to the original claim: `RProp` run on
`f(x) = x²/2` started at the exact optimum `x0 = 0` — gradient norm `0`,
below any positive threshold, with default `eps = 1e-6` — still returns
status `stopped` (after its 1-epoch budget), not `optimal`: the
gradient-norm termination the claim describes does not exist in
`RProp.minimize` (nor in `AdaMax.minimize`). -/
theorem C3_counterexample :
    rpropLoop [[1]] [0] (12 / 10) (1 / 2) (1 / 1000000) 1 1 3
        (rpropInit [0]) 0 = some ([0], Status.stopped) ∧
    normSq (quadJacobian [[1]] [0] [0]) ≤ 1 / 1000000 * (1 / 1000000) ∧
    Status.stopped ≠ Status.optimal := by
  with_unfolding_all decide

/-- The clamped step magnitude always lies in `[min_step, max_step]`
when `min_step ≤ max_step`. -/
theorem rpropChange_mem (step_grow step_shrink min_step max_step gp c : ℚ)
    (hms : min_step ≤ max_step) :
    min_step ≤ rpropChange step_grow step_shrink min_step max_step gp c ∧
      rpropChange step_grow step_shrink min_step max_step gp c ≤
        max_step := by
  simp only [rpropChange, clip]
  exact ⟨le_min (le_max_right _ _) hms, min_le_right _ _⟩

/-- C7: in every RProp iteration each coordinate's step magnitude is
multiplied by `step_grow` when the product `gm1 * gj` of the previous and
current gradient components is positive and by `step_shrink` when it is
negative, then clamped to `[min_step, max_step]`; the applied update on a
coordinate is the step magnitude times `sign(gj)` — `c`, `-c` or `0`
according to the gradient's sign only, ignoring its magnitude.  On a
coordinate with mismatched consecutive gradient signs the magnitude
becomes `clip(c * step_shrink)`, stays `≥ min_step`, and equals exactly
`c * step_shrink` whenever that value lies within the clamp interval. -/
theorem C7_rprop_step_adaptation
    (step_grow step_shrink min_step max_step gm1 gj c : ℚ)
    (hms : min_step ≤ max_step) :
    (0 < gm1 * gj →
      rpropChange step_grow step_shrink min_step max_step (gm1 * gj) c =
        clip min_step max_step (c * step_grow)) ∧
    (gm1 * gj < 0 →
      rpropChange step_grow step_shrink min_step max_step (gm1 * gj) c =
          clip min_step max_step (c * step_shrink) ∧
        min_step ≤
          rpropChange step_grow step_shrink min_step max_step (gm1 * gj)
            c ∧
        (min_step ≤ c * step_shrink → c * step_shrink ≤ max_step →
          rpropChange step_grow step_shrink min_step max_step (gm1 * gj)
              c =
            c * step_shrink)) ∧
    (min_step ≤
        rpropChange step_grow step_shrink min_step max_step (gm1 * gj)
          c ∧
      rpropChange step_grow step_shrink min_step max_step (gm1 * gj) c ≤
        max_step) ∧
    (0 < gj → c * sign gj = c) ∧ (gj < 0 → c * sign gj = -c) ∧
    (gj = 0 → c * sign gj = 0) ∧
    rpropStep2 [c] [gj] = [c * sign gj] := by
  refine ⟨fun h => ?_, fun h => ⟨?_, ?_, fun h1 h2 => ?_⟩,
    rpropChange_mem _ _ _ _ _ _ hms, fun h => ?_, fun h => ?_,
    fun h => ?_, rfl⟩
  · simp only [rpropChange, if_pos h]
  · simp only [rpropChange, if_neg (not_lt.mpr (le_of_lt h)), if_pos h]
  · exact (rpropChange_mem _ _ _ _ _ _ hms).1
  · simp only [rpropChange, if_neg (not_lt.mpr (le_of_lt h)), if_pos h,
      clip, max_eq_left h1, min_eq_left h2]
  · rw [sign, if_pos h, mul_one]
  · rw [sign, if_neg (not_lt.mpr (le_of_lt h)), if_pos h, mul_neg_one]
  · rw [sign, if_neg (by rw [h]; exact lt_irrefl 0),
      if_neg (by rw [h]; exact lt_irrefl 0), mul_zero]

/-- Witness for `C7_rprop_step_adaptation` with the sign-flip case:
`step_grow = 12/10`, `step_shrink = 1/2`, `min_step = 1/10`,
`max_step = 1`, previous gradient `1`, current gradient `-2`, current
magnitude `c = 1/2`. -/
theorem C7_witness :
    ((1 / 10 : ℚ) ≤ 1) ∧
    rpropChange (12 / 10) (1 / 2) (1 / 10) 1 ((1 : ℚ) * -2) (1 / 2) =
      clip (1 / 10) 1 ((1 / 2) * (1 / 2)) :=
  ⟨by with_unfolding_all decide,
    ((C7_rprop_step_adaptation (12 / 10) (1 / 2) (1 / 10) 1 1 (-2) (1 / 2)
          (by with_unfolding_all decide)).2.1
      (by with_unfolding_all decide)).1⟩

/-- Elementwise product with an aligned all-zero vector is zero. -/
theorem vmul_replicate_zero (v : Vec) :
    vmul (List.replicate v.length 0) v = List.replicate v.length 0 := by
  induction v with
  | nil => rfl
  | cons a v ih =>
    show (0 * a) :: vmul (List.replicate v.length 0) v = _
    rw [zero_mul, ih]
    rfl

/-- Zipping two equal-length constant vectors gives a constant vector. -/
theorem zipWith_replicate_eq (f : ℚ → ℚ → ℚ) (a b : ℚ) (n : ℕ) :
    List.zipWith f (List.replicate n a) (List.replicate n b) =
      List.replicate n (f a b) := by
  induction n with
  | zero => rfl
  | succ n ih =>
    show f a b :: _ = _
    rw [ih]
    rfl

/-- The RProp update along a constant magnitude vector is the signed
step on each gradient coordinate. -/
theorem rpropStep2_replicate (c : ℚ) (v : Vec) :
    rpropStep2 (List.replicate v.length c) v =
      v.map (fun j => c * sign j) := by
  induction v with
  | nil => rfl
  | cons a v ih =>
    show (c * sign a) :: rpropStep2 (List.replicate v.length c) v = _
    rw [ih]
    rfl

/-- C10: `RProp.__init__` initializes the step-magnitude vector
`changes` to all zeros; after every update each coordinate lies in
`[min_step, max_step]`; and on the very first update (previous stored
gradient all zeros, so every `grad_prod` coordinate is `0`) every
magnitude becomes exactly `min_step`, so each coordinate of `x` moves by
`min_step * sign(g)` — exactly `min_step` against the gradient sign on
every coordinate with a nonzero gradient. -/
theorem C10_rprop_init_first_step (Q : Mat) (q x0 : Vec)
    (step_grow step_shrink min_step max_step gp c j : ℚ)
    (hmn : 0 ≤ min_step) (hms : min_step ≤ max_step)
    (hlen : (quadJacobian Q q x0).length = x0.length) :
    (rpropInit x0).changes = List.replicate x0.length 0 ∧
    (min_step ≤ rpropChange step_grow step_shrink min_step max_step gp c ∧
      rpropChange step_grow step_shrink min_step max_step gp c ≤
        max_step) ∧
    (rpropBody Q q step_grow step_shrink min_step max_step
        (rpropInit x0)).changes = List.replicate x0.length min_step ∧
    (rpropBody Q q step_grow step_shrink min_step max_step
        (rpropInit x0)).x =
      vsub x0
        ((quadJacobian Q q x0).map (fun g => min_step * sign g)) ∧
    (0 < j → min_step * sign j = min_step) ∧
    (j < 0 → min_step * sign j = -min_step) := by
  have hc00 :
      rpropChange step_grow step_shrink min_step max_step 0 0 =
        min_step := by
    simp only [rpropChange, lt_irrefl, if_neg (lt_irrefl (0:ℚ)),
      if_false, clip, max_eq_right hmn, min_eq_left hms]
  have hA :
      vmul (rpropInit x0).jacobian (quadJacobian Q q x0) =
        List.replicate x0.length 0 := by
    show vmul (List.replicate x0.length 0) (quadJacobian Q q x0) = _
    rw [← hlen, vmul_replicate_zero]
  have hB :
      rpropChanges step_grow step_shrink min_step max_step
          (vmul (rpropInit x0).jacobian (quadJacobian Q q x0))
          (rpropInit x0).changes =
        List.replicate x0.length min_step := by
    rw [hA]
    show List.zipWith _ (List.replicate x0.length 0)
        (List.replicate x0.length 0) = _
    rw [zipWith_replicate_eq, hc00]
  refine ⟨rfl, rpropChange_mem _ _ _ _ _ _ hms, hB, ?_, fun h => ?_,
    fun h => ?_⟩
  · show vsub x0
        (rpropStep2
          (rpropChanges step_grow step_shrink min_step max_step
            (vmul (rpropInit x0).jacobian (quadJacobian Q q x0))
            (rpropInit x0).changes)
          (quadJacobian Q q x0)) = _
    rw [hB, ← hlen, rpropStep2_replicate]
  · rw [sign, if_pos h, mul_one]
  · rw [sign, if_neg (not_lt.mpr (le_of_lt h)), if_pos h, mul_neg_one]

/-- Witness for `C10_rprop_init_first_step` on `f(x) = x² - x`
(`Q = [[2]]`, `q = [1]`) from `x0 = [3]`, with `min_step = 1/10`,
`max_step = 1`. -/
theorem C10_witness :
    ((0:ℚ) ≤ 1 / 10 ∧ (1 / 10 : ℚ) ≤ 1 ∧
      (quadJacobian [[2]] [1] [3]).length = ([3] : Vec).length) ∧
    (rpropBody [[2]] [1] (12 / 10) (1 / 2) (1 / 10) 1
        (rpropInit [3])).changes = List.replicate 1 (1 / 10) :=
  ⟨⟨by with_unfolding_all decide, by with_unfolding_all decide,
      by with_unfolding_all decide⟩,
    (C10_rprop_init_first_step [[2]] [1] [3] (12 / 10) (1 / 2) (1 / 10) 1
        0 0 5 (by with_unfolding_all decide)
        (by with_unfolding_all decide)
        (by with_unfolding_all decide)).2.2.1⟩

end Yase
